import Mathlib

/-!
Verification development for the assistant-run lifecycle manager with
usage-quota enforcement implemented in `src/app.py`.

The embedding models, faithfully to the Python source:
* the result extractor inside `generate_structured_response`
  (first `{` to last `}` substring, `json.loads`-style parsing used only to
  state claims about parseability — the Python code itself never parses);
* the heartbeat-streaming run driver `generate_structured_response`;
* the conversation registry `get_or_create_thread` / `reset_user_thread`;
* the quota-gated `ask` endpoint.

External HTTP/SDK calls (Backendless record store, OpenAI engine) are
modelled as oracle parameters: each remote interaction's outcome is an
explicit input, and the functions return traces recording the writes and
remote calls they perform.
-/

namespace AcqAdvantage

/-! ### Character constants (written via code points to keep braces and
quotes out of literals) -/

def lbrace : Char := Char.ofNat 123

def rbrace : Char := Char.ofNat 125

def dquote : Char := Char.ofNat 34

def bslash : Char := Char.ofNat 92

/-! ### JSON values and a `json.loads`-style parser

`Json` models the Python value produced by `json.loads`.  Numeric literals
are modelled as integers (the claims only involve integer payloads).
-/

inductive Json where
  | null : Json
  | bool (b : Bool) : Json
  | num (n : Int) : Json
  | str (s : String) : Json
  | arr (elems : List Json) : Json
  | obj (fields : List (String × Json)) : Json
deriving Repr

def isWsChar (c : Char) : Bool :=
  c = ' ' || c = Char.ofNat 9 || c = Char.ofNat 10 || c = Char.ofNat 13

def skipWs : List Char → List Char
  | [] => []
  | c :: cs => if isWsChar c then skipWs cs else c :: cs

def isDigitChar (c : Char) : Bool := '0' ≤ c && c ≤ '9'

def digitsToNat (ds : List Char) : Nat :=
  ds.foldl (fun a c => 10 * a + (c.toNat - 48)) 0

def parseNat (cs : List Char) : Option (Nat × List Char) :=
  let p := cs.span isDigitChar
  if p.1.isEmpty then none else some (digitsToNat p.1, p.2)

def hexVal (c : Char) : Option Nat :=
  if '0' ≤ c ∧ c ≤ '9' then some (c.toNat - 48)
  else if 'a' ≤ c ∧ c ≤ 'f' then some (c.toNat - 87)
  else if 'A' ≤ c ∧ c ≤ 'F' then some (c.toNat - 55)
  else none

def escChar (e : Char) : Option Char :=
  if e = dquote then some dquote
  else if e = bslash then some bslash
  else if e = '/' then some '/'
  else if e = 'b' then some (Char.ofNat 8)
  else if e = 'f' then some (Char.ofNat 12)
  else if e = 'n' then some (Char.ofNat 10)
  else if e = 'r' then some (Char.ofNat 13)
  else if e = 't' then some (Char.ofNat 9)
  else none

/-- Parse the body of a JSON string literal, the opening quote already
consumed; returns the decoded characters and the remaining input. -/
def parseStrChars : Nat → List Char → Option (List Char × List Char)
  | 0, _ => none
  | fuel + 1, cs =>
    match cs with
    | [] => none
    | c :: rest =>
      if c = dquote then some ([], rest)
      else if c = bslash then
        match rest with
        | [] => none
        | e :: rest2 =>
          if e = 'u' then
            match rest2 with
            | h1 :: h2 :: h3 :: h4 :: rest3 =>
              match hexVal h1, hexVal h2, hexVal h3, hexVal h4 with
              | some a, some b, some c2, some d =>
                (parseStrChars fuel rest3).map
                  (fun p => (Char.ofNat (((a * 16 + b) * 16 + c2) * 16 + d) :: p.1, p.2))
              | _, _, _, _ => none
            | _ => none
          else
            match escChar e with
            | some ch => (parseStrChars fuel rest2).map (fun p => (ch :: p.1, p.2))
            | none => none
      else (parseStrChars fuel rest).map (fun p => (c :: p.1, p.2))

mutual

def parseValue : Nat → List Char → Option (Json × List Char)
  | 0, _ => none
  | fuel + 1, cs0 =>
    match skipWs cs0 with
    | [] => none
    | c :: rest =>
      if c = dquote then
        (parseStrChars (rest.length + 1) rest).map (fun p => (Json.str (String.mk p.1), p.2))
      else if c = lbrace then
        match skipWs rest with
        | c2 :: r2 =>
          if c2 = rbrace then some (Json.obj [], r2)
          else
            match parseMembers fuel (c2 :: r2) with
            | some (fs, r) => some (Json.obj fs, r)
            | none => none
        | [] => none
      else if c = '[' then
        match skipWs rest with
        | c2 :: r2 =>
          if c2 = ']' then some (Json.arr [], r2)
          else
            match parseElems fuel (c2 :: r2) with
            | some (vs, r) => some (Json.arr vs, r)
            | none => none
        | [] => none
      else if c = '-' then
        (parseNat rest).map (fun p => (Json.num (-(p.1 : Int)), p.2))
      else if isDigitChar c then
        (parseNat (c :: rest)).map (fun p => (Json.num (p.1 : Int), p.2))
      else if c = 't' then
        match rest with
        | 'r' :: 'u' :: 'e' :: r => some (Json.bool true, r)
        | _ => none
      else if c = 'f' then
        match rest with
        | 'a' :: 'l' :: 's' :: 'e' :: r => some (Json.bool false, r)
        | _ => none
      else if c = 'n' then
        match rest with
        | 'u' :: 'l' :: 'l' :: r => some (Json.null, r)
        | _ => none
      else none

def parseMembers : Nat → List Char → Option (List (String × Json) × List Char)
  | 0, _ => none
  | fuel + 1, cs =>
    match cs with
    | [] => none
    | c :: rest =>
      if c = dquote then
        match parseStrChars (rest.length + 1) rest with
        | none => none
        | some (k, r1) =>
          match skipWs r1 with
          | [] => none
          | c2 :: r2 =>
            if c2 = ':' then
              match parseValue fuel r2 with
              | none => none
              | some (v, r3) =>
                match skipWs r3 with
                | [] => none
                | c3 :: r4 =>
                  if c3 = ',' then
                    match parseMembers fuel (skipWs r4) with
                    | some (fs, r5) => some ((String.mk k, v) :: fs, r5)
                    | none => none
                  else if c3 = rbrace then some ([(String.mk k, v)], r4)
                  else none
            else none
      else none

def parseElems : Nat → List Char → Option (List Json × List Char)
  | 0, _ => none
  | fuel + 1, cs =>
    match parseValue fuel cs with
    | none => none
    | some (v, r1) =>
      match skipWs r1 with
      | [] => none
      | c :: r2 =>
        if c = ',' then
          match parseElems fuel r2 with
          | some (vs, r3) => some (v :: vs, r3)
          | none => none
        else if c = ']' then some ([v], r2)
        else none

end

/-- Model of Python's `json.loads`: parse one JSON value and require that
only whitespace remains; `none` models a raised `JSONDecodeError`. -/
def json_loads (s : String) : Option Json :=
  match parseValue (2 * s.length + 8) s.data with
  | some (j, rest) => if (skipWs rest).isEmpty then some j else none
  | none => none

/-! ### Result extractor

Models lines 101-106 of `src/app.py`:
`start_index = content.index('{')`, `end_index = content.rindex('}') + 1`,
`json_string = content[start_index:end_index]`.  A missing brace raises
`ValueError` (modelled by `none`); the substring itself is yielded raw —
the Python code never parses it.
-/

/-- Index of the first occurrence of `c`, as Python `str.index` (which
raises `ValueError`, here `none`, when absent). -/
def idxOf (c : Char) : List Char → Option Nat
  | [] => none
  | x :: xs => if x = c then some 0 else (idxOf c xs).map (· + 1)

/-- Index of the last occurrence of `c`, as Python `str.rindex`. -/
def rIdxOf (c : Char) (cs : List Char) : Option Nat :=
  (idxOf c cs.reverse).map (fun k => cs.length - 1 - k)

/-- The candidate JSON document: the substring of `content` from the first
found left brace through the last found right brace, inclusive (Python slice
`content[start_index:end_index]`); `none` when either brace is absent. -/
def extractCandidate (content : String) : Option String :=
  match idxOf lbrace content.data, rIdxOf rbrace content.data with
  | some i, some j => some (String.mk ((content.data.drop i).take (j + 1 - i)))
  | _, _ => none

/-! ### Run driver (`generate_structured_response`, lines 42-120)

Remote-engine interactions are oracle inputs collected in `RunEnv`:
`submitExn` is a possible exception while creating the message or the run;
`initialStatus` is `run.status` right after creation; `polls` lists the
outcomes of successive `runs.retrieve` calls; `finalFetch` is the assistant
message text obtained from `messages.list` (or an exception).
-/

def heartbeat : String := " "

/-- Python's `json.dumps({"error": msg})` with default separators. -/
def errorJson (msg : String) : String :=
  "\x7b\"error\": \"" ++ msg ++ "\"\x7d"

def extractionErrorMsg : String := "Failed to extract valid JSON from response."

/-- The loop guard `run.status in ['queued', 'in_progress', 'cancelling']`
(line 77). -/
def isNonTerminal (s : String) : Bool :=
  s == "queued" || s == "in_progress" || s == "cancelling"

/-- Outcome of one `runs.retrieve` call. -/
inductive PollOutcome where
  | toStatus (s : String) : PollOutcome
  | raised (e : String) : PollOutcome

/-- How the polling loop ended. -/
inductive PollResult where
  | terminal (s : String) : PollResult
  | raised (e : String) : PollResult
  | diverged : PollResult
deriving DecidableEq

/-- The `while run.status in [...]` loop (lines 77-88): each iteration
sleeps, retrieves the run, then yields one heartbeat unit.  Returns the
heartbeat units yielded together with how the loop ended; `diverged` marks
an oracle that never reaches a terminal state (the Python loop would spin
forever). -/
def pollPhase : String → List PollOutcome → List String × PollResult
  | s, polls =>
    if isNonTerminal s then
      match polls with
      | [] => ([], PollResult.diverged)
      | PollOutcome.raised e :: _ => ([], PollResult.raised e)
      | PollOutcome.toStatus s2 :: rest =>
        let r := pollPhase s2 rest
        (heartbeat :: r.1, r.2)
    else ([], PollResult.terminal s)

/-- Oracle for one run's remote interactions. -/
structure RunEnv where
  submitExn : Option String
  initialStatus : String
  polls : List PollOutcome
  finalFetch : Except String String

/-- The final unit yielded after the loop exits with terminal status `s`
(lines 91-115): on `completed`, fetch the newest message and yield the
brace-delimited substring, or the extraction-error payload when a brace is
missing; on any other status, yield the run-failed payload; a fetch
exception is converted by the outer handler (lines 117-120). -/
def finalUnit (s : String) (fetch : Except String String) : String :=
  if s = "completed" then
    match fetch with
    | Except.ok content =>
      match extractCandidate content with
      | some cand => cand
      | none => errorJson extractionErrorMsg
    | Except.error e => errorJson ("An error occurred: " ++ e)
  else errorJson ("Run failed with status: " ++ s)

/-- The full generator `generate_structured_response`: the list of units it
yields, in order; `none` models a polling loop that never terminates. -/
def generate_structured_response (env : RunEnv) : Option (List String) :=
  match env.submitExn with
  | some e => some [errorJson ("An error occurred: " ++ e)]
  | none =>
    match pollPhase env.initialStatus env.polls with
    | (_, PollResult.diverged) => none
    | (hb, PollResult.raised e) => some (hb ++ [errorJson ("An error occurred: " ++ e)])
    | (hb, PollResult.terminal s) => some (hb ++ [finalUnit s env.finalFetch])

/-! ### User records and record-store writes

A Backendless user record, restricted to the two fields this system touches.
`currentThreadId = none` models both an absent field and an explicit `null`;
`dailyQuestionCount = none` models an absent field.  A PUT payload is the
list of named fields it carries, mirroring the Python dict literals.
-/

structure UserRecord where
  currentThreadId : Option String
  dailyQuestionCount : Option Nat
deriving DecidableEq

inductive FieldVal where
  | thread (t : Option String) : FieldVal
  | count (n : Nat) : FieldVal
deriving DecidableEq

abbrev Payload := List (String × FieldVal)

def applyField (r : UserRecord) (f : String × FieldVal) : UserRecord :=
  match f with
  | ("currentThreadId", FieldVal.thread t) => { r with currentThreadId := t }
  | ("dailyQuestionCount", FieldVal.count n) => { r with dailyQuestionCount := some n }
  | _ => r

def applyPayload (r : UserRecord) (p : Payload) : UserRecord :=
  p.foldl applyField r

def applyWrites (r : UserRecord) (ws : List Payload) : UserRecord :=
  ws.foldl applyPayload r

/-- Python truthiness of `user_data.get('currentThreadId')`: present and
non-empty. -/
def hasThread (r : UserRecord) : Bool :=
  match r.currentThreadId with
  | some s => s != ""
  | none => false

/-! ### Conversation registry (`get_or_create_thread`, lines 123-180) -/

structure RegistryEnv where
  getFails : Bool
  createFails : Bool
  putFails : Bool

/-- Trace of one `get_or_create_thread` call: the returned thread id
(`none` models the Python `return None` failure path), the remote
conversations created, and the record-store writes that landed. -/
structure GocTrace where
  result : Option String
  createdThreads : List String
  writes : List Payload
deriving DecidableEq

def threadPayload (tid : String) : Payload :=
  [("currentThreadId", FieldVal.thread (some tid))]

def get_or_create_thread (env : RegistryEnv) (rec : UserRecord) (newId : String) : GocTrace :=
  if env.getFails then ⟨none, [], []⟩
  else if hasThread rec then ⟨rec.currentThreadId, [], []⟩
  else if env.createFails then ⟨none, [], []⟩
  else if env.putFails then ⟨none, [newId], []⟩
  else ⟨some newId, [newId], [threadPayload newId]⟩

/-! ### Conversation reset (`reset_user_thread`, lines 183-230, and the
`/reset_thread` endpoint, lines 694-734) -/

/-- Outcome of `openai_client.beta.threads.delete`: either the SDK raises,
or it returns a response object whose content the Python code ignores. -/
inductive DeleteOutcome where
  | raised (e : String) : DeleteOutcome
  | returned (deleted : Bool) : DeleteOutcome
deriving DecidableEq

structure ResetEnv where
  getFails : Bool
  deleteOutcome : DeleteOutcome
  putFails : Bool

structure ResetTrace where
  success : Bool
  deleteCalls : List String
  writes : List Payload
deriving DecidableEq

def clearThreadPayload : Payload := [("currentThreadId", FieldVal.thread none)]

def reset_user_thread (env : ResetEnv) (rec : UserRecord) : ResetTrace :=
  if env.getFails then ⟨false, [], []⟩
  else if hasThread rec then
    match env.deleteOutcome with
    | DeleteOutcome.raised _ => ⟨false, [rec.currentThreadId.getD ""], []⟩
    | DeleteOutcome.returned _ =>
      if env.putFails then ⟨false, [rec.currentThreadId.getD ""], []⟩
      else ⟨true, [rec.currentThreadId.getD ""], [clearThreadPayload]⟩
  else if env.putFails then ⟨false, [], []⟩
  else ⟨true, [], [clearThreadPayload]⟩

/-- The `/reset_thread` endpoint's mapping of the helper's result to an
HTTP response (status string, HTTP code). -/
def reset_thread (t : ResetTrace) : String × Nat :=
  if t.success then ("success", 200) else ("failure", 500)

/-! ### Quota-gated ask (`ask` endpoint, lines 602-670) -/

def quotaLimit : Nat := 100

/-- Reads `user_data.get('dailyQuestionCount', 0)` (line 651). -/
def getCount (r : UserRecord) : Nat := r.dailyQuestionCount.getD 0

/-- The update payload `{'dailyQuestionCount': new_count}` with
`new_count = daily_count + 1` (lines 657-658). -/
def askPayload (r : UserRecord) : Payload :=
  [("dailyQuestionCount", FieldVal.count (getCount r + 1))]

inductive AskResponse where
  | rejected429 : AskResponse
  | error500 : AskResponse
  | streaming (units : Option (List String)) : AskResponse

/-- Trace of one `ask` call after request validation: the HTTP response,
the record-store writes that landed, and whether the run generator was
handed to the streaming response (which submits the message and run when
consumed). -/
structure AskTrace where
  response : AskResponse
  writes : List Payload
  runSubmitted : Bool

def ask (getFails : Bool) (rec : UserRecord) (putFails : Bool) (env : RunEnv) : AskTrace :=
  if getFails then ⟨AskResponse.error500, [], false⟩
  else if quotaLimit ≤ getCount rec then ⟨AskResponse.rejected429, [], false⟩
  else if putFails then ⟨AskResponse.error500, [], false⟩
  else ⟨AskResponse.streaming (generate_structured_response env), [askPayload rec], true⟩

/-! ## Shared lemmas -/

theorem idxOf_eq_none_iff (c : Char) (cs : List Char) : idxOf c cs = none ↔ c ∉ cs := by
  induction cs with
  | nil => simp [idxOf]
  | cons x xs ih =>
    by_cases hx : x = c
    · subst hx
      simp [idxOf]
    · simp [idxOf, hx, ih, Ne.symm hx]

theorem rIdxOf_eq_none_iff (c : Char) (cs : List Char) : rIdxOf c cs = none ↔ c ∉ cs := by
  simp [rIdxOf, idxOf_eq_none_iff, List.mem_reverse]

/-- Applying the quota payload bumps the counter to exactly `old + 1`. -/
theorem getCount_applyWrites_askPayload (rec : UserRecord) :
    getCount (applyWrites rec [askPayload rec]) = getCount rec + 1 := by
  simp [applyWrites, applyPayload, applyField, askPayload, getCount]

/-! ## Claims -/

/-- **C1.** For every user whose quota counter is at or above the configured
limit, `ask` returns the 429 rejection without writing the counter back and
without submitting any run: the trace records no record-store write and no
run submission, so the counter value is unchanged. -/
theorem ask_quota_exceeded_rejects (rec : UserRecord) (putFails : Bool) (env : RunEnv)
    (h : quotaLimit ≤ getCount rec) :
    ask false rec putFails env = ⟨AskResponse.rejected429, [], false⟩ ∧
    applyWrites rec (ask false rec putFails env).writes = rec := by
  have hask : ask false rec putFails env = ⟨AskResponse.rejected429, [], false⟩ := by
    simp [ask, h]
  exact ⟨hask, by rw [hask]; rfl⟩

theorem ask_quota_exceeded_rejects_witness :
    ask false ⟨none, some 100⟩ false ⟨none, "completed", [], Except.ok ""⟩ =
      ⟨AskResponse.rejected429, [], false⟩ ∧
    applyWrites ⟨none, some 100⟩
      (ask false ⟨none, some 100⟩ false ⟨none, "completed", [], Except.ok ""⟩).writes =
      ⟨none, some 100⟩ :=
  ask_quota_exceeded_rejects ⟨none, some 100⟩ false ⟨none, "completed", [], Except.ok ""⟩
    (by decide)

/-- **C2.** For every user whose counter (read with default zero when the
field is absent) is strictly below the limit, `ask` writes `counter + 1`
back to the record store and only then hands the run to the response; a PUT
failure yields no run submission.  For a user at `limit - 1` the accepted
request pushes the counter to the limit, and the next request is rejected
without a write. -/
theorem ask_below_limit_increments (rec : UserRecord) (env env2 : RunEnv) (pf2 : Bool)
    (h : getCount rec < quotaLimit) :
    ask false rec false env =
      ⟨AskResponse.streaming (generate_structured_response env), [askPayload rec], true⟩ ∧
    getCount (applyWrites rec (ask false rec false env).writes) = getCount rec + 1 ∧
    (∀ t, getCount ⟨t, none⟩ = 0) ∧
    (ask false rec true env).runSubmitted = false ∧
    (getCount rec = quotaLimit - 1 →
      (ask false (applyWrites rec (ask false rec false env).writes) pf2 env2).response =
        AskResponse.rejected429 ∧
      (ask false (applyWrites rec (ask false rec false env).writes) pf2 env2).writes = []) := by
  have h' : ¬ quotaLimit ≤ getCount rec := not_le.mpr h
  have hask : ask false rec false env =
      ⟨AskResponse.streaming (generate_structured_response env), [askPayload rec], true⟩ := by
    simp [ask, h']
  refine ⟨hask, ?_, fun t => rfl, by simp [ask, h'], ?_⟩
  · rw [hask]
    exact getCount_applyWrites_askPayload rec
  · intro h99
    rw [hask]
    have hrec' : getCount (applyWrites rec [askPayload rec]) = quotaLimit := by
      rw [getCount_applyWrites_askPayload, h99]
      decide
    have hge : quotaLimit ≤ getCount (applyWrites rec [askPayload rec]) := le_of_eq hrec'.symm
    constructor <;> simp [ask, hge]

theorem ask_below_limit_increments_witness :
    (ask false ⟨none, some 99⟩ false ⟨none, "completed", [], Except.ok ""⟩ =
      ⟨AskResponse.streaming
        (generate_structured_response ⟨none, "completed", [], Except.ok ""⟩),
        [askPayload ⟨none, some 99⟩], true⟩ ∧
    getCount (applyWrites ⟨none, some 99⟩
      (ask false ⟨none, some 99⟩ false ⟨none, "completed", [], Except.ok ""⟩).writes) =
      getCount ⟨none, some 99⟩ + 1 ∧
    (∀ t, getCount ⟨t, none⟩ = 0) ∧
    (ask false ⟨none, some 99⟩ true ⟨none, "completed", [], Except.ok ""⟩).runSubmitted = false ∧
    (getCount (⟨none, some 99⟩ : UserRecord) = quotaLimit - 1 →
      (ask false (applyWrites ⟨none, some 99⟩
          (ask false ⟨none, some 99⟩ false ⟨none, "completed", [], Except.ok ""⟩).writes)
          false ⟨none, "completed", [], Except.ok ""⟩).response =
        AskResponse.rejected429 ∧
      (ask false (applyWrites ⟨none, some 99⟩
          (ask false ⟨none, some 99⟩ false ⟨none, "completed", [], Except.ok ""⟩).writes)
          false ⟨none, "completed", [], Except.ok ""⟩).writes = [])) :=
  ask_below_limit_increments ⟨none, some 99⟩ ⟨none, "completed", [], Except.ok ""⟩
    ⟨none, "completed", [], Except.ok ""⟩ false (by decide)

/-- **C9.** An accepted `ask` consumes quota even when the run subsequently
fails: the counter increment is the only write, it is recorded before the
run generator is handed over, the write does not depend on the run's
outcome, and in particular when the stream ends in an error payload the
counter remains incremented by one — no path refunds it. -/
theorem ask_counter_kept_on_run_failure (rec : UserRecord) (env : RunEnv)
    (h : getCount rec < quotaLimit) :
    (ask false rec false env).writes = [askPayload rec] ∧
    (ask false rec false env).runSubmitted = true ∧
    (∀ env2 : RunEnv, (ask false rec false env2).writes = (ask false rec false env).writes) ∧
    (∀ l m, generate_structured_response env = some l →
      l.getLast? = some (errorJson m) →
      getCount (applyWrites rec (ask false rec false env).writes) = getCount rec + 1) := by
  have h' : ¬ quotaLimit ≤ getCount rec := not_le.mpr h
  refine ⟨by simp [ask, h'], by simp [ask, h'], fun env2 => by simp [ask, h'], ?_⟩
  intro l m _ _
  have hw : (ask false rec false env).writes = [askPayload rec] := by simp [ask, h']
  rw [hw]
  exact getCount_applyWrites_askPayload rec

theorem ask_counter_kept_on_run_failure_witness :
    (ask false ⟨none, some 7⟩ false
        ⟨none, "queued", [PollOutcome.toStatus "failed"], Except.ok ""⟩).writes =
      [askPayload ⟨none, some 7⟩] ∧
    (ask false ⟨none, some 7⟩ false
        ⟨none, "queued", [PollOutcome.toStatus "failed"], Except.ok ""⟩).runSubmitted = true ∧
    (∀ env2 : RunEnv, (ask false ⟨none, some 7⟩ false env2).writes =
      (ask false ⟨none, some 7⟩ false
        ⟨none, "queued", [PollOutcome.toStatus "failed"], Except.ok ""⟩).writes) ∧
    (∀ l m, generate_structured_response
        ⟨none, "queued", [PollOutcome.toStatus "failed"], Except.ok ""⟩ = some l →
      l.getLast? = some (errorJson m) →
      getCount (applyWrites ⟨none, some 7⟩
        (ask false ⟨none, some 7⟩ false
          ⟨none, "queued", [PollOutcome.toStatus "failed"], Except.ok ""⟩).writes) =
        getCount ⟨none, some 7⟩ + 1) :=
  ask_counter_kept_on_run_failure ⟨none, some 7⟩
    ⟨none, "queued", [PollOutcome.toStatus "failed"], Except.ok ""⟩ (by decide)

/-- **C10.** The quota-increment write performed by `ask` names only the
`dailyQuestionCount` field, so the conversation-handle field is preserved by
it; the registry's write-back and the reset's clearing write name only
`currentThreadId`. -/
theorem ask_writes_only_daily_count (gf pf : Bool) (rec rrec : UserRecord) (env : RunEnv)
    (renv : RegistryEnv) (nid : String) (denv : ResetEnv) :
    ((ask gf rec pf env).writes.all
      (fun p => p.map Prod.fst == ["dailyQuestionCount"])) = true ∧
    (applyWrites rec (ask gf rec pf env).writes).currentThreadId = rec.currentThreadId ∧
    ((get_or_create_thread renv rrec nid).writes.all
      (fun p => p.map Prod.fst == ["currentThreadId"])) = true ∧
    ((reset_user_thread denv rrec).writes.all
      (fun p => p.map Prod.fst == ["currentThreadId"])) = true := by
  obtain ⟨dg, dd, dp⟩ := denv
  refine ⟨?_, ?_, ?_, ?_⟩
  · unfold ask
    split_ifs <;> simp [askPayload]
  · unfold ask
    split_ifs <;>
      simp [applyWrites, applyPayload, applyField, askPayload]
  · unfold get_or_create_thread
    split_ifs <;> simp [threadPayload]
  · unfold reset_user_thread
    cases dd <;> split_ifs <;> simp [clearThreadPayload]

/-- **C3.** When the raw text contains a left and a right brace, the result
extractor takes the substring from the first left brace through the last
right brace inclusive as the candidate JSON document, and when that
candidate parses successfully the final stream unit is exactly it, so the
caller receives exactly the parsed structure; in particular, prose
surrounding a single JSON object yields exactly that object. -/
theorem extractor_returns_embedded_object (env : RunEnv) (hb : List String)
    (content cand : String) (j : Json)
    (hsub : env.submitExn = none)
    (hpoll : pollPhase env.initialStatus env.polls = (hb, PollResult.terminal "completed"))
    (hfetch : env.finalFetch = Except.ok content)
    (hcand : extractCandidate content = some cand)
    (hparse : json_loads cand = some j) :
    generate_structured_response env = some (hb ++ [cand]) ∧
    json_loads cand = some j := by
  refine ⟨?_, hparse⟩
  unfold generate_structured_response
  rw [hsub, hpoll]
  simp [finalUnit, hfetch, hcand]

theorem extractor_returns_embedded_object_witness :
    generate_structured_response
        ⟨none, "completed", [], Except.ok "blah \x7b\"a\":1,\"b\":[1,2]\x7d trailing"⟩ =
      some ([] ++ ["\x7b\"a\":1,\"b\":[1,2]\x7d"]) ∧
    json_loads "\x7b\"a\":1,\"b\":[1,2]\x7d" =
      some (Json.obj [("a", Json.num 1), ("b", Json.arr [Json.num 1, Json.num 2])]) :=
  extractor_returns_embedded_object
    ⟨none, "completed", [], Except.ok "blah \x7b\"a\":1,\"b\":[1,2]\x7d trailing"⟩ []
    "blah \x7b\"a\":1,\"b\":[1,2]\x7d trailing" "\x7b\"a\":1,\"b\":[1,2]\x7d"
    (Json.obj [("a", Json.num 1), ("b", Json.arr [Json.num 1, Json.num 2])])
    rfl rfl rfl rfl rfl

/-- **C4 (counterexample).** The claim that a brace-delimited substring
failing to parse as JSON produces the `ExtractionError` payload is false on
the code: for raw text whose brace-delimited substring is not valid JSON,
the generator yields that substring itself as the final unit, not the
extraction-error payload — no parse check occurs in `src/app.py`
lines 101-106. -/
theorem extractor_no_parse_check_cex :
    generate_structured_response
        ⟨none, "completed", [], Except.ok "prose \x7bmalformed\x7d tail"⟩ =
      some ["\x7bmalformed\x7d"] ∧
    json_loads "\x7bmalformed\x7d" = none ∧
    "\x7bmalformed\x7d" ≠ errorJson extractionErrorMsg := by
  refine ⟨rfl, rfl, ?_⟩
  decide

/-- **C4 (amended).** If the raw text has no left brace or no right brace,
the extractor fails with the `ExtractionError` payload, delivered in-band as
the final stream unit, and nothing is raised past the boundary (the
generator is total); when both braces exist the brace-delimited substring is
yielded as-is, with no parse-failure check. -/
theorem extractor_missing_brace_error (env : RunEnv) (hb : List String) (content : String)
    (hsub : env.submitExn = none)
    (hpoll : pollPhase env.initialStatus env.polls = (hb, PollResult.terminal "completed"))
    (hfetch : env.finalFetch = Except.ok content)
    (hmiss : lbrace ∉ content.data ∨ rbrace ∉ content.data) :
    generate_structured_response env = some (hb ++ [errorJson extractionErrorMsg]) ∧
    (∀ cand, extractCandidate content = some cand →
      generate_structured_response env = some (hb ++ [cand])) := by
  have hcand : extractCandidate content = none := by
    rcases hmiss with hm | hm
    · have h1 : idxOf lbrace content.data = none := (idxOf_eq_none_iff _ _).mpr hm
      simp [extractCandidate, h1]
    · have h2 : rIdxOf rbrace content.data = none := (rIdxOf_eq_none_iff _ _).mpr hm
      cases h1 : idxOf lbrace content.data <;> simp [extractCandidate, h1, h2]
  constructor
  · unfold generate_structured_response
    rw [hsub, hpoll]
    simp [finalUnit, hfetch, hcand]
  · intro cand hc
    rw [hcand] at hc
    exact absurd hc (by simp)

theorem extractor_missing_brace_error_witness :
    generate_structured_response ⟨none, "completed", [], Except.ok "no braces here"⟩ =
      some ([] ++ [errorJson extractionErrorMsg]) ∧
    (∀ cand, extractCandidate "no braces here" = some cand →
      generate_structured_response ⟨none, "completed", [], Except.ok "no braces here"⟩ =
        some ([] ++ [cand])) :=
  extractor_missing_brace_error ⟨none, "completed", [], Except.ok "no braces here"⟩ []
    "no braces here" rfl rfl rfl (Or.inl (by decide))

/-- **C6.** A heartbeat-mode stream for a run that takes 3 poll cycles to
reach a terminal state yields exactly 3 filler units — each the single
whitespace character emitted after a status check — followed by exactly 1
final unit, which is either the extracted result or an error payload; the
fillers are the only non-final elements of the sequence. -/
theorem heartbeat_three_cycles (env : RunEnv) (s1 s2 s3 : String)
    (hsub : env.submitExn = none)
    (h0 : isNonTerminal env.initialStatus = true)
    (hp : env.polls = [PollOutcome.toStatus s1, PollOutcome.toStatus s2, PollOutcome.toStatus s3])
    (h1 : isNonTerminal s1 = true) (h2 : isNonTerminal s2 = true)
    (h3 : isNonTerminal s3 = false) :
    generate_structured_response env =
      some [heartbeat, heartbeat, heartbeat, finalUnit s3 env.finalFetch] ∧
    heartbeat = " " ∧
    ((∃ m, finalUnit s3 env.finalFetch = errorJson m) ∨
     (∃ content cand, env.finalFetch = Except.ok content ∧
        extractCandidate content = some cand ∧ finalUnit s3 env.finalFetch = cand)) := by
  have hpoll : pollPhase env.initialStatus env.polls =
      ([heartbeat, heartbeat, heartbeat], PollResult.terminal s3) := by
    rw [hp]
    simp [pollPhase, h0, h1, h2, h3]
  refine ⟨?_, rfl, ?_⟩
  · unfold generate_structured_response
    rw [hsub, hpoll]
    rfl
  · by_cases hc : s3 = "completed"
    · subst hc
      cases hf : env.finalFetch with
      | error e =>
        exact Or.inl ⟨"An error occurred: " ++ e, by simp [finalUnit, hf]⟩
      | ok content =>
        cases hcand : extractCandidate content with
        | none =>
          exact Or.inl ⟨extractionErrorMsg, by simp [finalUnit, hf, hcand]⟩
        | some cand =>
          exact Or.inr ⟨content, cand, rfl, hcand, by simp [finalUnit, hcand]⟩
    · exact Or.inl ⟨"Run failed with status: " ++ s3, by simp [finalUnit, hc]⟩

theorem heartbeat_three_cycles_witness :
    generate_structured_response
        ⟨none, "queued",
          [PollOutcome.toStatus "in_progress", PollOutcome.toStatus "in_progress",
            PollOutcome.toStatus "completed"], Except.ok "x\x7b\"a\":1\x7dy"⟩ =
      some [heartbeat, heartbeat, heartbeat,
        finalUnit "completed" (Except.ok "x\x7b\"a\":1\x7dy")] ∧
    heartbeat = " " ∧
    ((∃ m, finalUnit "completed" (Except.ok "x\x7b\"a\":1\x7dy") = errorJson m) ∨
     (∃ content cand, (Except.ok "x\x7b\"a\":1\x7dy" : Except String String) =
          Except.ok content ∧
        extractCandidate content = some cand ∧
        finalUnit "completed" (Except.ok "x\x7b\"a\":1\x7dy") = cand)) :=
  heartbeat_three_cycles
    ⟨none, "queued",
      [PollOutcome.toStatus "in_progress", PollOutcome.toStatus "in_progress",
        PollOutcome.toStatus "completed"], Except.ok "x\x7b\"a\":1\x7dy"⟩
    "in_progress" "in_progress" "completed" rfl rfl rfl rfl rfl rfl

/-- **C7.** For every run whose remote-reported terminal status is not
`completed`, and for every exception raised while talking to the remote
engine — at submission, during a status poll, or while fetching the final
message — the driver delivers a typed error payload carrying the status
string (or exception message) as the final unit of the same stream a
successful result would have used; the generator is total (nothing is
raised past the mode boundary) and never produces an empty stream. -/
theorem run_driver_error_delivery (env : RunEnv) (hb : List String) (s e : String) :
    (env.submitExn = some e →
      generate_structured_response env = some [errorJson ("An error occurred: " ++ e)]) ∧
    (env.submitExn = none →
      pollPhase env.initialStatus env.polls = (hb, PollResult.raised e) →
      generate_structured_response env = some (hb ++ [errorJson ("An error occurred: " ++ e)])) ∧
    (env.submitExn = none →
      pollPhase env.initialStatus env.polls = (hb, PollResult.terminal s) →
      s ≠ "completed" →
      generate_structured_response env =
        some (hb ++ [errorJson ("Run failed with status: " ++ s)])) ∧
    (env.submitExn = none →
      pollPhase env.initialStatus env.polls = (hb, PollResult.terminal "completed") →
      env.finalFetch = Except.error e →
      generate_structured_response env = some (hb ++ [errorJson ("An error occurred: " ++ e)])) ∧
    (∀ l, generate_structured_response env = some l → l ≠ []) := by
  refine ⟨?_, ?_, ?_, ?_, ?_⟩
  · intro hsub
    unfold generate_structured_response
    rw [hsub]
  · intro hsub hpoll
    unfold generate_structured_response
    rw [hsub, hpoll]
  · intro hsub hpoll hs
    unfold generate_structured_response
    rw [hsub, hpoll]
    simp [finalUnit, hs]
  · intro hsub hpoll hf
    unfold generate_structured_response
    rw [hsub, hpoll]
    simp [finalUnit, hf]
  · intro l hl
    unfold generate_structured_response at hl
    split at hl
    · simp only [Option.some.injEq] at hl
      subst hl
      simp
    · split at hl
      · exact absurd hl (by simp)
      · simp only [Option.some.injEq] at hl
        subst hl
        simp
      · simp only [Option.some.injEq] at hl
        subst hl
        simp

theorem run_driver_error_delivery_witness :
    generate_structured_response ⟨some "boom", "queued", [], Except.ok ""⟩ =
      some [errorJson ("An error occurred: " ++ "boom")] ∧
    generate_structured_response ⟨none, "queued", [PollOutcome.raised "net"], Except.ok ""⟩ =
      some ([] ++ [errorJson ("An error occurred: " ++ "net")]) ∧
    generate_structured_response ⟨none, "queued", [PollOutcome.toStatus "failed"], Except.ok ""⟩ =
      some ([heartbeat] ++ [errorJson ("Run failed with status: " ++ "failed")]) ∧
    generate_structured_response ⟨none, "completed", [], Except.error "oops"⟩ =
      some ([] ++ [errorJson ("An error occurred: " ++ "oops")]) :=
  ⟨(run_driver_error_delivery ⟨some "boom", "queued", [], Except.ok ""⟩ [] "x" "boom").1 rfl,
   (run_driver_error_delivery ⟨none, "queued", [PollOutcome.raised "net"], Except.ok ""⟩
      [] "x" "net").2.1 rfl rfl,
   (run_driver_error_delivery ⟨none, "queued", [PollOutcome.toStatus "failed"], Except.ok ""⟩
      [heartbeat] "failed" "y").2.2.1 rfl rfl (by decide),
   (run_driver_error_delivery ⟨none, "completed", [], Except.error "oops"⟩
      [] "x" "oops").2.2.2.1 rfl rfl rfl⟩

/-- **C5.** `get_or_create_thread` is idempotent per user between resets:
when the record carries a non-empty conversation-handle field it returns
that handle unchanged and creates no remote conversation; a user with no
prior handle gets exactly one handle allocated and written back, and every
subsequent call for that user — under any environment whose record fetch
succeeds and with any fresh-id candidate — returns the same handle and
creates nothing. -/
theorem registry_resolve_idempotent (env env2 : RegistryEnv) (rec : UserRecord)
    (nid nid2 : String)
    (hget : env.getFails = false) (hget2 : env2.getFails = false) (hnid : nid ≠ "") :
    (hasThread rec = true →
      get_or_create_thread env rec nid = ⟨rec.currentThreadId, [], []⟩) ∧
    (hasThread rec = false → env.createFails = false → env.putFails = false →
      get_or_create_thread env rec nid = ⟨some nid, [nid], [threadPayload nid]⟩ ∧
      hasThread (applyWrites rec (get_or_create_thread env rec nid).writes) = true ∧
      get_or_create_thread env2 (applyWrites rec (get_or_create_thread env rec nid).writes) nid2 =
        ⟨some nid, [], []⟩) := by
  constructor
  · intro hthr
    simp [get_or_create_thread, hget, hthr]
  · intro hthr hcre hput
    have hgoc : get_or_create_thread env rec nid = ⟨some nid, [nid], [threadPayload nid]⟩ := by
      simp [get_or_create_thread, hget, hthr, hcre, hput]
    have hrec' : applyWrites rec (get_or_create_thread env rec nid).writes =
        { rec with currentThreadId := some nid } := by
      rw [hgoc]
      rfl
    have hthr' : hasThread (applyWrites rec (get_or_create_thread env rec nid).writes) = true := by
      rw [hrec']
      simp [hasThread, hnid]
    refine ⟨hgoc, hthr', ?_⟩
    rw [hrec'] at hthr' ⊢
    simp [get_or_create_thread, hget2, hthr']

theorem registry_resolve_idempotent_witness :
    (hasThread ⟨none, some 0⟩ = true →
      get_or_create_thread ⟨false, false, false⟩ ⟨none, some 0⟩ "T1" =
        ⟨(⟨none, some 0⟩ : UserRecord).currentThreadId, [], []⟩) ∧
    (hasThread ⟨none, some 0⟩ = false → false = false → false = false →
      get_or_create_thread ⟨false, false, false⟩ ⟨none, some 0⟩ "T1" =
        ⟨some "T1", ["T1"], [threadPayload "T1"]⟩ ∧
      hasThread (applyWrites ⟨none, some 0⟩
        (get_or_create_thread ⟨false, false, false⟩ ⟨none, some 0⟩ "T1").writes) = true ∧
      get_or_create_thread ⟨false, false, false⟩
          (applyWrites ⟨none, some 0⟩
            (get_or_create_thread ⟨false, false, false⟩ ⟨none, some 0⟩ "T1").writes) "T2" =
        ⟨some "T1", [], []⟩) :=
  registry_resolve_idempotent ⟨false, false, false⟩ ⟨false, false, false⟩ ⟨none, some 0⟩
    "T1" "T2" rfl rfl (by decide)

/-- **C8.** `reset_user_thread` fetches the user's current handle if any,
deletes it remotely, then clears the handle field and reports success (the
endpoint answers status success / 200); for a user whose record carries no
handle the remote deletion is skipped and the field is still cleared with
success; and the content of the remote delete response — including one
reporting the handle as already gone — is ignored, so a non-raising
deletion failure is not distinguished from success. -/
theorem reset_clears_thread (env : ResetEnv) (rec : UserRecord) (b : Bool)
    (hget : env.getFails = false) (hput : env.putFails = false) :
    (hasThread rec = true → env.deleteOutcome = DeleteOutcome.returned b →
      reset_user_thread env rec =
        ⟨true, [rec.currentThreadId.getD ""], [clearThreadPayload]⟩ ∧
      (applyWrites rec (reset_user_thread env rec).writes).currentThreadId = none ∧
      reset_thread (reset_user_thread env rec) = ("success", 200)) ∧
    (hasThread rec = false →
      reset_user_thread env rec = ⟨true, [], [clearThreadPayload]⟩ ∧
      (applyWrites rec (reset_user_thread env rec).writes).currentThreadId = none ∧
      reset_thread (reset_user_thread env rec) = ("success", 200)) ∧
    (∀ b2 : Bool,
      reset_user_thread ⟨env.getFails, DeleteOutcome.returned b2, env.putFails⟩ rec =
        reset_user_thread ⟨env.getFails, DeleteOutcome.returned true, env.putFails⟩ rec) := by
  refine ⟨?_, ?_, ?_⟩
  · intro hthr hdel
    have hres : reset_user_thread env rec =
        ⟨true, [rec.currentThreadId.getD ""], [clearThreadPayload]⟩ := by
      simp [reset_user_thread, hget, hthr, hdel, hput]
    refine ⟨hres, ?_, ?_⟩
    · rw [hres]
      rfl
    · rw [hres]
      rfl
  · intro hthr
    have hres : reset_user_thread env rec = ⟨true, [], [clearThreadPayload]⟩ := by
      simp [reset_user_thread, hget, hthr, hput]
    refine ⟨hres, ?_, ?_⟩
    · rw [hres]
      rfl
    · rw [hres]
      rfl
  · intro b2
    by_cases hthr : hasThread rec <;>
      simp [reset_user_thread, hthr]

theorem reset_clears_thread_witness :
    (hasThread ⟨some "t1", some 5⟩ = true →
      (⟨false, DeleteOutcome.returned true, false⟩ : ResetEnv).deleteOutcome =
        DeleteOutcome.returned true →
      reset_user_thread ⟨false, DeleteOutcome.returned true, false⟩ ⟨some "t1", some 5⟩ =
        ⟨true, [(⟨some "t1", some 5⟩ : UserRecord).currentThreadId.getD ""],
          [clearThreadPayload]⟩ ∧
      (applyWrites ⟨some "t1", some 5⟩
        (reset_user_thread ⟨false, DeleteOutcome.returned true, false⟩
          ⟨some "t1", some 5⟩).writes).currentThreadId = none ∧
      reset_thread (reset_user_thread ⟨false, DeleteOutcome.returned true, false⟩
        ⟨some "t1", some 5⟩) = ("success", 200)) ∧
    (hasThread ⟨some "t1", some 5⟩ = false →
      reset_user_thread ⟨false, DeleteOutcome.returned true, false⟩ ⟨some "t1", some 5⟩ =
        ⟨true, [], [clearThreadPayload]⟩ ∧
      (applyWrites ⟨some "t1", some 5⟩
        (reset_user_thread ⟨false, DeleteOutcome.returned true, false⟩
          ⟨some "t1", some 5⟩).writes).currentThreadId = none ∧
      reset_thread (reset_user_thread ⟨false, DeleteOutcome.returned true, false⟩
        ⟨some "t1", some 5⟩) = ("success", 200)) ∧
    (∀ b2 : Bool,
      reset_user_thread ⟨false, DeleteOutcome.returned b2, false⟩ ⟨some "t1", some 5⟩ =
        reset_user_thread ⟨false, DeleteOutcome.returned true, false⟩ ⟨some "t1", some 5⟩) :=
  reset_clears_thread ⟨false, DeleteOutcome.returned true, false⟩ ⟨some "t1", some 5⟩ true
    rfl rfl

end AcqAdvantage
